import Mathlib

/-!
Shallow embedding of the womanSafetyDTI backend (`src/server.js`).

The server keeps a module-level array `clients` of Server-Sent-Events sinks
(the ObserverSet), a `broadcast` function that invokes every sink, three
mutation routes (`POST /api/locations`, `DELETE /api/locations`,
`POST /send-sos`) and a Twilio-based SOS dispatcher over a hardcoded
roster of three phone numbers.  Coordinates are embedded as exact
rationals; request-body fields are `Option` values (`none` = absent key).
-/

namespace WomanSafety

/-- A stored marker record (the `Location` mongoose document, without the
store-assigned id/timestamp, which no claim depends on). -/
structure Marker where
  latitude : ℚ
  longitude : ℚ
  description : String
deriving Repr, DecidableEq

/-- A change event handed to `broadcast`:
`{ type: 'NEW_MARKER', data: newLocation }` or
`{ type: 'DELETE_MARKER', data: { latitude, longitude } }`. -/
inductive ChangeEvent where
  | NEW_MARKER (m : Marker)
  | DELETE_MARKER (latitude longitude : ℚ)
deriving Repr, DecidableEq

/-- An SSE client from `GET /events`: the closure
`(data) => res.write(...)` pushed onto `clients`.  `broken` models a sink
whose `res.write` throws when invoked (a permanently broken sink). -/
structure Observer where
  id : ℕ
  broken : Bool
deriving Repr, DecidableEq

/-- `clients.push(client)` in the `/events` handler. -/
def subscribe (clients : List Observer) (c : Observer) : List Observer :=
  clients ++ [c]

/-- The `close` handler: `clients = clients.filter(c => c !== client)`. -/
def unsubscribe (clients : List Observer) (c : Observer) : List Observer :=
  clients.filter (fun x => x ≠ c)

/-- Observable effect of one `broadcast(data)` call. -/
structure BroadcastResult where
  /-- the sinks that received `data`, paired with it, in invocation order -/
  delivered : List (Observer × ChangeEvent)
  /-- the `clients` array after the call (broadcast never reassigns it) -/
  clientsAfter : List Observer
  /-- whether a sink's exception escaped `forEach` to the caller -/
  errorRaised : Bool
deriving Repr, DecidableEq

/-- The `forEach` pass of `broadcast`: invoke each sink on `data` in
order; a broken sink throws, so later sinks are not invoked and the
exception flag is set. -/
def broadcastGo (data : ChangeEvent) :
    List Observer → List (Observer × ChangeEvent) × Bool
  | [] => ([], false)
  | c :: rest =>
    if c.broken then ([], true)
    else
      let r := broadcastGo data rest
      ((c, data) :: r.1, r.2)

/-- `function broadcast(data) { clients.forEach(client => client(data)); }`

`Array.prototype.forEach` invokes the callback on each element in order;
the callback body has no try/catch, so a sink that throws aborts the
iteration and the exception propagates to broadcast's caller.  `broadcast`
itself never mutates `clients`. -/
def broadcast (clients : List Observer) (data : ChangeEvent) : BroadcastResult :=
  let r := broadcastGo data clients
  { delivered := r.1, clientsAfter := clients, errorRaised := r.2 }

/-! ### Request validation

Each mutating route begins `if (!latitude || !longitude) return 400`.
A request-body field is `none` when absent; JS truthiness makes the
number 0 falsy, so a coordinate of exactly 0 fails the check too. -/

/-- JS falsiness of a numeric request-body field: absent or equal to 0. -/
def falsy : Option ℚ → Bool
  | none => true
  | some x => x == 0

/-! ### POST /api/locations -/

/-- Outcome of `newLocation.save()`: the promise resolves, or rejects with
an error message (caught by the handler's `catch`). -/
inductive StoreResult where
  | ok
  | err (msg : String)
deriving Repr, DecidableEq

/-- Observable effect of one `POST /api/locations` request. -/
structure PostResult where
  /-- HTTP status sent to the caller -/
  status : ℕ
  /-- events passed to `broadcast` by this request, in order -/
  events : List ChangeEvent
  /-- markers durably written to the store by this request -/
  saved : List Marker
deriving Repr, DecidableEq

/-- The `POST /api/locations` handler: validate, build the document with
`description: description || ''`, `await newLocation.save()`, and only
then `broadcast({ type: 'NEW_MARKER', data: newLocation })` and reply 201;
a rejected save is caught and answered with 500, with no broadcast. -/
def postLocation (latitude longitude : Option ℚ) (description : Option String)
    (save : StoreResult) : PostResult :=
  if falsy latitude || falsy longitude then
    { status := 400, events := [], saved := [] }
  else
    let m : Marker := { latitude := latitude.getD 0, longitude := longitude.getD 0,
                        description := description.getD "" }
    match save with
    | .ok => { status := 201, events := [.NEW_MARKER m], saved := [m] }
    | .err _ => { status := 500, events := [], saved := [] }

/-! ### DELETE /api/locations -/

/-- The tolerance literal `0.00001` in the delete query. -/
def tol : ℚ := 1 / 100000

/-- The mongo filter
`latitude: { $gte: latitude - 0.00001, $lte: latitude + 0.00001 }` (and
likewise for longitude): a stored marker matches the requested pair when
each stored coordinate lies in the closed interval of radius `tol` around
the requested one. -/
def coordMatch (reqLat reqLon : ℚ) (m : Marker) : Bool :=
  (reqLat - tol ≤ m.latitude && m.latitude ≤ reqLat + tol) &&
  (reqLon - tol ≤ m.longitude && m.longitude ≤ reqLon + tol)

/-- Observable effect of one `DELETE /api/locations` request. -/
structure DeleteResult where
  status : ℕ
  /-- events passed to `broadcast` by this request -/
  events : List ChangeEvent
  /-- store contents after the request -/
  store : List Marker
deriving Repr, DecidableEq

/-- The `DELETE /api/locations` handler: validate, then
`Location.findOneAndDelete` with the tolerance filter (modelled as: remove
the first matching marker of the store).  On a match, broadcast
`{ type: 'DELETE_MARKER', data: { latitude, longitude } }` — the REQUEST
coordinates — and reply with success; on no match reply 404.  A store
exception (`storeFail`) is caught and answered 500 with no broadcast. -/
def deleteLocation (latitude longitude : Option ℚ) (store : List Marker)
    (storeFail : Bool) : DeleteResult :=
  if falsy latitude || falsy longitude then
    { status := 400, events := [], store := store }
  else if storeFail then
    { status := 500, events := [], store := store }
  else
    let lat := latitude.getD 0
    let lon := longitude.getD 0
    match store.find? (coordMatch lat lon) with
    | some m =>
      { status := 200, events := [.DELETE_MARKER lat lon], store := store.erase m }
    | none => { status := 404, events := [], store := store }

/-! ### POST /send-sos -/

/-- The hardcoded `emergencyContacts` roster. -/
def emergencyContacts : List String :=
  ["+918360708882", "+917902844175", "+917470651181"]

/-- Twilio credentials read from the environment. -/
structure Creds where
  accountSid : String
  authToken : String
  twilioNumber : String
deriving Repr, DecidableEq

/-- Behaviour of the external channel for one recipient once a client was
constructed: `client.messages.create` resolves with a sid, resolves
without one, or rejects. -/
inductive SendBehavior where
  | sid (s : String)
  | noSid
  | throws (msg : String)
deriving Repr, DecidableEq

/-- One entry pushed onto `results`:
`{ contact, success: true }` or `{ contact, success: false, error }`. -/
structure Outcome where
  contact : String
  success : Bool
  error : Option String
deriving Repr, DecidableEq

/-- One iteration of the `for (const contact of emergencyContacts)` loop.
The whole body sits in a `try`: `twilio(accountSid, authToken)` is called
INSIDE the loop and, with missing credentials, throws (the twilio
constructor rejects an absent/invalid account SID) and is caught like any
per-recipient error; otherwise the send's outcome is recorded from
`twilioResponse.sid`.  Every path pushes exactly one `Outcome`. -/
def attempt (creds : Option Creds) (behavior : String → SendBehavior)
    (contact : String) : Outcome :=
  match creds with
  | none =>
    { contact := contact, success := false,
      error := some "accountSid must start with AC" }
  | some _ =>
    match behavior contact with
    | .sid _ => { contact := contact, success := true, error := none }
    | .noSid => { contact := contact, success := false, error := some "Failed to send" }
    | .throws msg => { contact := contact, success := false, error := some msg }

/-- The `results` array after the loop: one outcome per roster entry, in
roster order — the per-iteration try/catch means no failure aborts the
loop. -/
def sendSosResults (creds : Option Creds) (behavior : String → SendBehavior)
    (contacts : List String) : List Outcome :=
  contacts.map (attempt creds behavior)

/-- The aggregate response chosen after the loop. -/
inductive AggregateResult where
  | allSuccess
  | partialSuccess (successful total : ℕ)
  | failure
deriving Repr, DecidableEq

/-- `const successful = results.filter(r => r.success).length`. -/
def successCount (results : List Outcome) : ℕ :=
  (results.filter (fun r => r.success)).length

/-- The aggregation branch:
`successful === emergencyContacts.length` → all-success json,
`successful > 0` → partial json with `{ successful, total }`,
otherwise → 500 failure json. -/
def aggregate (results : List Outcome) (total : ℕ) : AggregateResult :=
  if successCount results = total then .allSuccess
  else if 0 < successCount results then .partialSuccess (successCount results) total
  else .failure

/-- HTTP status of the aggregate reply: the first two use `res.json`
(200), total failure uses `res.status(500)`. -/
def aggregateStatus : AggregateResult → ℕ
  | .allSuccess => 200
  | .partialSuccess _ _ => 200
  | .failure => 500

/-- Observable effect of one `POST /send-sos` request. -/
structure SosResult where
  status : ℕ
  /-- the per-recipient outcomes recorded by the loop (empty when the
  validation guard returned before the loop ran) -/
  results : List Outcome
  /-- the aggregate reply, when the loop ran -/
  aggregate : Option AggregateResult
deriving Repr, DecidableEq

/-- The `POST /send-sos` handler: validate, run the roster loop, then
reply with the aggregate. -/
def sendSosHandler (latitude longitude : Option ℚ) (creds : Option Creds)
    (behavior : String → SendBehavior) : SosResult :=
  if falsy latitude || falsy longitude then
    { status := 400, results := [], aggregate := none }
  else
    let results := sendSosResults creds behavior emergencyContacts
    let agg := aggregate results emergencyContacts.length
    { status := aggregateStatus agg, results := results, aggregate := some agg }

/-! ## Theorems -/

/-- Helper: the `forEach` pass over a list of non-broken sinks delivers
`data` to each of them, in order, and raises no exception. -/
theorem broadcastGo_all_live (data : ChangeEvent) (clients : List Observer)
    (h : ∀ c ∈ clients, c.broken = false) :
    broadcastGo data clients = (clients.map (fun c => (c, data)), false) := by
  induction clients with
  | nil => rfl
  | cons c rest ih =>
    have hc : c.broken = false := h c (List.mem_cons_self c rest)
    have hrest : ∀ x ∈ rest, x.broken = false :=
      fun x hx => h x (List.mem_cons_of_mem c hx)
    simp [broadcastGo, hc, ih hrest]

/-- C7: publishing to an ObserverSet of N live observers makes exactly N
delivery attempts, one per observer currently in the set, in set order;
with zero observers it completes without error and delivers to nobody
(and nothing is retained: the broker keeps no event history). -/
theorem broadcast_delivers_once_per_live_observer
    (clients : List Observer) (data : ChangeEvent)
    (h : ∀ c ∈ clients, c.broken = false) :
    (broadcast clients data).delivered = clients.map (fun c => (c, data)) ∧
    (broadcast clients data).delivered.length = clients.length ∧
    (broadcast clients data).errorRaised = false ∧
    (broadcast clients data).clientsAfter = clients := by
  simp [broadcast, broadcastGo_all_live data clients h]

/-- Witness for C7 at two live observers and at the empty set. -/
theorem broadcast_delivers_once_per_live_observer_witness :
    (broadcast [⟨1, false⟩, ⟨2, false⟩] (.DELETE_MARKER 1 2)).delivered =
      [(⟨1, false⟩, ChangeEvent.DELETE_MARKER 1 2),
       (⟨2, false⟩, ChangeEvent.DELETE_MARKER 1 2)] ∧
    (broadcast [] (.DELETE_MARKER 1 2)).delivered = [] ∧
    (broadcast [] (.DELETE_MARKER 1 2)).errorRaised = false :=
  ⟨(broadcast_delivers_once_per_live_observer _ _ (by decide)).1,
   (broadcast_delivers_once_per_live_observer [] _ (fun c hc => absurd hc (List.not_mem_nil c))).1,
   (broadcast_delivers_once_per_live_observer [] _ (fun c hc => absurd hc (List.not_mem_nil c))).2.2.1⟩

/-- C2 counterexample: with observers 1 (live), 2 (broken sink), 3 (live),
`broadcast` does NOT deliver to live observer 3, does NOT remove the
broken observer 2 from the set, and DOES let the sink's exception reach
the publisher — contradicting the claim on all three points. -/
theorem broadcast_broken_sink_counterexample :
    (⟨3, false⟩, ChangeEvent.DELETE_MARKER 1 2) ∉
      (broadcast [⟨1, false⟩, ⟨2, true⟩, ⟨3, false⟩] (.DELETE_MARKER 1 2)).delivered ∧
    (⟨2, true⟩ : Observer) ∈
      (broadcast [⟨1, false⟩, ⟨2, true⟩, ⟨3, false⟩] (.DELETE_MARKER 1 2)).clientsAfter ∧
    (broadcast [⟨1, false⟩, ⟨2, true⟩, ⟨3, false⟩] (.DELETE_MARKER 1 2)).errorRaised = true := by
  decide

/-- C2 (amended): when exactly one observer's sink is broken, `broadcast`
delivers the event only to the observers that precede the broken one in
set order; the sink's exception propagates to the publisher, the
observers after the broken one receive nothing, and the broken observer
is not removed from the set (removal happens only in the connection-close
handler). -/
theorem broadcast_broken_sink (pre post : List Observer) (b : Observer)
    (data : ChangeEvent) (hpre : ∀ c ∈ pre, c.broken = false)
    (hb : b.broken = true) :
    (broadcast (pre ++ b :: post) data).delivered = pre.map (fun c => (c, data)) ∧
    (broadcast (pre ++ b :: post) data).errorRaised = true ∧
    (broadcast (pre ++ b :: post) data).clientsAfter = pre ++ b :: post := by
  refine ⟨?_, ?_, rfl⟩ <;>
  · induction pre with
    | nil => simp [broadcast, broadcastGo, hb]
    | cons c rest ih =>
      have hc : c.broken = false := hpre c (List.mem_cons_self c rest)
      have hrest : ∀ x ∈ rest, x.broken = false :=
        fun x hx => hpre x (List.mem_cons_of_mem c hx)
      simpa [broadcast, broadcastGo, hc] using ih hrest

/-- Witness for the amended C2: live observer 1, broken observer 2, live
observer 3. -/
theorem broadcast_broken_sink_witness :
    (broadcast [⟨1, false⟩, ⟨2, true⟩, ⟨3, false⟩] (.NEW_MARKER ⟨1, 2, ""⟩)).delivered =
      [(⟨1, false⟩, ChangeEvent.NEW_MARKER ⟨1, 2, ""⟩)] ∧
    (broadcast [⟨1, false⟩, ⟨2, true⟩, ⟨3, false⟩] (.NEW_MARKER ⟨1, 2, ""⟩)).errorRaised = true ∧
    (broadcast [⟨1, false⟩, ⟨2, true⟩, ⟨3, false⟩] (.NEW_MARKER ⟨1, 2, ""⟩)).clientsAfter =
      [⟨1, false⟩, ⟨2, true⟩, ⟨3, false⟩] :=
  broadcast_broken_sink [⟨1, false⟩] [⟨3, false⟩] ⟨2, true⟩ _ (by decide) (by decide)

/-- C9: unsubscribing is idempotent — removing an observer twice equals
removing it once, removing an observer not in the set leaves the set
unchanged (and never fails, `unsubscribe` being total), and every other
observer stays in the set. -/
theorem unsubscribe_idempotent (clients : List Observer) (c : Observer) :
    unsubscribe (unsubscribe clients c) c = unsubscribe clients c ∧
    (c ∉ clients → unsubscribe clients c = clients) ∧
    ∀ x ∈ clients, x ≠ c → x ∈ unsubscribe clients c := by
  refine ⟨?_, ?_, ?_⟩
  · simp [unsubscribe, List.filter_filter]
  · intro hc
    exact List.filter_eq_self.mpr fun a ha => by
      simp only [ne_eq, decide_eq_true_eq]
      exact fun h => hc (h ▸ ha)
  · intro x hx hne
    exact List.mem_filter.mpr ⟨hx, by simp [hne]⟩

/-- Witness for C9 with a two-observer set and an observer not in it. -/
theorem unsubscribe_idempotent_witness :
    unsubscribe (unsubscribe [⟨1, false⟩, ⟨2, false⟩] ⟨3, false⟩) ⟨3, false⟩ =
      unsubscribe [⟨1, false⟩, ⟨2, false⟩] ⟨3, false⟩ ∧
    unsubscribe [⟨1, false⟩, ⟨2, false⟩] ⟨3, false⟩ = [⟨1, false⟩, ⟨2, false⟩] ∧
    (⟨1, false⟩ : Observer) ∈ unsubscribe [⟨1, false⟩, ⟨2, false⟩] ⟨3, false⟩ :=
  ⟨(unsubscribe_idempotent [⟨1, false⟩, ⟨2, false⟩] ⟨3, false⟩).1,
   (unsubscribe_idempotent [⟨1, false⟩, ⟨2, false⟩] ⟨3, false⟩).2.1 (by decide),
   (unsubscribe_idempotent [⟨1, false⟩, ⟨2, false⟩] ⟨3, false⟩).2.2 ⟨1, false⟩
     (by decide) (by decide)⟩

/-- Helper: every loop iteration records the outcome under its own
contact. -/
theorem attempt_contact (creds : Option Creds) (behavior : String → SendBehavior)
    (c : String) : (attempt creds behavior c).contact = c := by
  cases creds with
  | none => rfl
  | some cr => cases h : behavior c <;> simp [attempt, h]

/-- Helper: a failed outcome always carries a diagnostic detail. -/
theorem attempt_failure_detail (creds : Option Creds)
    (behavior : String → SendBehavior) (c : String)
    (hf : (attempt creds behavior c).success = false) :
    (attempt creds behavior c).error.isSome = true := by
  cases creds with
  | none => rfl
  | some cr => cases h : behavior c <;> simp [attempt, h] at hf ⊢

/-- C1: the aggregate returned for an SOS trigger over the fixed roster is
all-success when every send succeeded, partial success carrying the
success count and the roster size when strictly between 0 and all, and
overall failure when no send succeeded. -/
theorem sos_aggregate_policy (creds : Option Creds)
    (behavior : String → SendBehavior) :
    (successCount (sendSosResults creds behavior emergencyContacts) =
        emergencyContacts.length →
      aggregate (sendSosResults creds behavior emergencyContacts)
        emergencyContacts.length = .allSuccess) ∧
    (0 < successCount (sendSosResults creds behavior emergencyContacts) →
      successCount (sendSosResults creds behavior emergencyContacts) <
        emergencyContacts.length →
      aggregate (sendSosResults creds behavior emergencyContacts)
        emergencyContacts.length =
        .partialSuccess (successCount (sendSosResults creds behavior emergencyContacts))
          emergencyContacts.length) ∧
    (successCount (sendSosResults creds behavior emergencyContacts) = 0 →
      aggregate (sendSosResults creds behavior emergencyContacts)
        emergencyContacts.length = .failure) := by
  refine ⟨fun h => ?_, fun h1 h2 => ?_, fun h => ?_⟩
  · simp [aggregate, h]
  · have hne : successCount (sendSosResults creds behavior emergencyContacts) ≠
        emergencyContacts.length := Nat.ne_of_lt h2
    simp [aggregate, hne, h1]
  · simp only [aggregate, h]
    rfl

/-- Witness for C1: all sends succeed → all-success; one succeeds → partial
with the counts; credentials missing (all fail) → failure. -/
theorem sos_aggregate_policy_witness :
    aggregate (sendSosResults (some ⟨"AC1", "tok", "+1"⟩)
        (fun _ => .sid "SM") emergencyContacts) emergencyContacts.length =
      .allSuccess ∧
    aggregate (sendSosResults (some ⟨"AC1", "tok", "+1"⟩)
        (fun c => if c = "+918360708882" then .sid "SM" else .throws "boom")
        emergencyContacts) emergencyContacts.length =
      .partialSuccess (successCount (sendSosResults (some ⟨"AC1", "tok", "+1"⟩)
        (fun c => if c = "+918360708882" then .sid "SM" else .throws "boom")
        emergencyContacts)) emergencyContacts.length ∧
    aggregate (sendSosResults none (fun _ => .sid "SM") emergencyContacts)
      emergencyContacts.length = .failure :=
  ⟨(sos_aggregate_policy (some ⟨"AC1", "tok", "+1"⟩) (fun _ => .sid "SM")).1 (by decide),
   (sos_aggregate_policy (some ⟨"AC1", "tok", "+1"⟩)
     (fun c => if c = "+918360708882" then .sid "SM" else .throws "boom")).2.1
     (by decide) (by decide),
   (sos_aggregate_policy none (fun _ => .sid "SM")).2.2 (by decide)⟩

/-- C4: one send attempt is made per roster recipient, in roster order,
regardless of earlier failures (the per-iteration try/catch prevents any
short-circuit), and every failed outcome carries success=false together
with a diagnostic detail — no per-recipient failure escapes as a fatal
error (`sendSosResults` is total). -/
theorem sos_attempts_every_recipient (creds : Option Creds)
    (behavior : String → SendBehavior) :
    (sendSosResults creds behavior emergencyContacts).map (fun o => o.contact) =
      emergencyContacts ∧
    ∀ o ∈ sendSosResults creds behavior emergencyContacts,
      o.success = false → o.error.isSome = true := by
  constructor
  · rw [sendSosResults, List.map_map]
    have h : ((fun o => o.contact) ∘ attempt creds behavior) = fun c => c := by
      funext c
      exact attempt_contact creds behavior c
    rw [h]
    exact List.map_id _
  · intro o ho hf
    obtain ⟨c, _, rfl⟩ := List.mem_map.mp ho
    exact attempt_failure_detail creds behavior c hf

/-- Witness for C4: every send throws, yet all three roster entries get an
attempt and each failure records a detail. -/
theorem sos_attempts_every_recipient_witness :
    (sendSosResults (some ⟨"AC1", "tok", "+1"⟩) (fun _ => .throws "boom")
        emergencyContacts).map (fun o => o.contact) = emergencyContacts ∧
    (attempt (some ⟨"AC1", "tok", "+1"⟩) (fun _ => .throws "boom")
        "+917470651181").error.isSome = true :=
  ⟨(sos_attempts_every_recipient (some ⟨"AC1", "tok", "+1"⟩) (fun _ => .throws "boom")).1,
   (sos_attempts_every_recipient (some ⟨"AC1", "tok", "+1"⟩) (fun _ => .throws "boom")).2
     (attempt (some ⟨"AC1", "tok", "+1"⟩) (fun _ => .throws "boom") "+917470651181")
     (by decide) (by decide)⟩

/-- C8 counterexample: with the Twilio credentials missing, the handler
does NOT fail before the roster loop — it still iterates the entire
roster (one recorded outcome per recipient, three in total) and replies
with the ordinary post-loop aggregate-failure response, not an immediate
precondition failure. -/
theorem sos_missing_creds_counterexample :
    ((sendSosHandler (some 12) (some 77) none (fun _ => .sid "SM")).results.map
      (fun o => o.contact)) = emergencyContacts ∧
    (sendSosHandler (some 12) (some 77) none (fun _ => .sid "SM")).results.length = 3 ∧
    (sendSosHandler (some 12) (some 77) none (fun _ => .sid "SM")).aggregate =
      some .failure ∧
    (sendSosHandler (some 12) (some 77) none (fun _ => .sid "SM")).status = 500 := by
  refine ⟨?_, ?_, ?_, ?_⟩ <;> rfl

/-- C8 (amended): a missing-credentials SOS trigger is not rejected up
front — there is no credentials precondition check; the handler iterates
the whole roster, each per-recipient attempt fails when the channel
client constructor throws inside the loop (caught like any per-recipient
error and recorded as success=false with a diagnostic), and the caller
receives the aggregate overall-failure (HTTP 500) response after the
loop. -/
theorem sos_missing_creds_iterates_roster (lat lon : ℚ) (hlat : lat ≠ 0)
    (hlon : lon ≠ 0) (behavior : String → SendBehavior) :
    (sendSosHandler (some lat) (some lon) none behavior).results =
      emergencyContacts.map (attempt none behavior) ∧
    (∀ o ∈ (sendSosHandler (some lat) (some lon) none behavior).results,
      o.success = false ∧ o.error.isSome = true) ∧
    (sendSosHandler (some lat) (some lon) none behavior).aggregate =
      some .failure ∧
    (sendSosHandler (some lat) (some lon) none behavior).status = 500 := by
  have hval : (falsy (some lat) || falsy (some lon)) = false := by
    simp [falsy, hlat, hlon]
  refine ⟨?_, ?_, ?_, ?_⟩
  · simp [sendSosHandler, hval, sendSosResults]
  · intro o ho
    simp [sendSosHandler, hval, sendSosResults, emergencyContacts, attempt] at ho
    rcases ho with h | h | h <;> subst h <;> exact ⟨rfl, rfl⟩
  · simp only [sendSosHandler, hval]
    rfl
  · simp only [sendSosHandler, hval]
    rfl

/-- Witness for the amended C8 at coordinates (12, 77) with a channel that
would otherwise succeed for every contact. -/
theorem sos_missing_creds_iterates_roster_witness :
    (sendSosHandler (some 12) (some 77) none (fun _ => .sid "SM")).results =
      emergencyContacts.map (attempt none (fun _ => .sid "SM")) ∧
    (sendSosHandler (some 12) (some 77) none (fun _ => .sid "SM")).aggregate =
      some .failure ∧
    (sendSosHandler (some 12) (some 77) none (fun _ => .sid "SM")).status = 500 :=
  ⟨(sos_missing_creds_iterates_roster 12 77 (by decide) (by decide) (fun _ => .sid "SM")).1,
   (sos_missing_creds_iterates_roster 12 77 (by decide) (by decide) (fun _ => .sid "SM")).2.2.1,
   (sos_missing_creds_iterates_roster 12 77 (by decide) (by decide) (fun _ => .sid "SM")).2.2.2⟩

/-- C3: for a valid marker-creation request, a `NEW_MARKER` event is
passed to `broadcast` if and only if `save()` resolved: on success exactly
one publish of the created record follows (and the caller gets 201); on a
rejected save no publish happens and the caller gets the store's error
indication (500). -/
theorem post_publishes_iff_store_confirmed (lat lon : Option ℚ)
    (desc : Option String) (save : StoreResult)
    (hlat : falsy lat = false) (hlon : falsy lon = false) :
    ((postLocation lat lon desc save).events ≠ [] ↔ save = .ok) ∧
    (save = .ok →
      (postLocation lat lon desc save).events =
        [.NEW_MARKER ⟨lat.getD 0, lon.getD 0, desc.getD ""⟩] ∧
      (postLocation lat lon desc save).status = 201) ∧
    (∀ msg, save = .err msg →
      (postLocation lat lon desc save).events = [] ∧
      (postLocation lat lon desc save).status = 500) := by
  cases save with
  | ok => simp [postLocation, hlat, hlon]
  | err m => simp [postLocation, hlat, hlon]

/-- Witness for C3 at coordinates (12, 77): a confirmed save publishes, a
rejected save does not. -/
theorem post_publishes_iff_store_confirmed_witness :
    ((postLocation (some 12) (some 77) none .ok).events ≠ [] ↔
      StoreResult.ok = .ok) ∧
    ((postLocation (some 12) (some 77) none (.err "db down")).events ≠ [] ↔
      StoreResult.err "db down" = .ok) :=
  ⟨(post_publishes_iff_store_confirmed (some 12) (some 77) none .ok
      (by decide) (by decide)).1,
   (post_publishes_iff_store_confirmed (some 12) (some 77) none (.err "db down")
      (by decide) (by decide)).1⟩

/-- Helper: the mongo range filter is equivalent to both coordinates lying
within `tol` of the requested pair. -/
theorem coordMatch_iff_abs (a b : ℚ) (m : Marker) :
    coordMatch a b m = true ↔
      |m.latitude - a| ≤ tol ∧ |m.longitude - b| ≤ tol := by
  simp only [coordMatch, Bool.and_eq_true, decide_eq_true_eq, abs_le]
  constructor
  · rintro ⟨⟨h1, h2⟩, h3, h4⟩
    exact ⟨⟨by linarith, by linarith⟩, ⟨by linarith, by linarith⟩⟩
  · rintro ⟨⟨h1, h2⟩, h3, h4⟩
    exact ⟨⟨by linarith, by linarith⟩, ⟨by linarith, by linarith⟩⟩

/-- Helper: the marker at (12.9716, 77.5946) matches a delete request for
(12.97161, 77.59461): both offsets are exactly the tolerance, and the
filter's bounds are inclusive. -/
theorem coordMatch_near : coordMatch 12.97161 77.59461 ⟨12.9716, 77.5946, ""⟩ = true := by
  rw [coordMatch_iff_abs]
  constructor <;>
  · rw [abs_le]
    constructor <;> norm_num [tol]

/-- Helper: the marker at (12.9716, 77.5946) does not match a delete
request for (12.9800, 77.6000). -/
theorem coordMatch_far : coordMatch 12.98 77.6 ⟨12.9716, 77.5946, ""⟩ = false := by
  have h : ¬ coordMatch 12.98 77.6 (⟨12.9716, 77.5946, ""⟩ : Marker) = true := by
    rw [coordMatch_iff_abs]
    rintro ⟨h1, -⟩
    rw [abs_le] at h1
    have := h1.1
    norm_num [tol] at this
  exact Bool.eq_false_iff.mpr h

/-- Helper: the two request coordinates of the matching example are not
JS-falsy. -/
theorem near_request_not_falsy :
    falsy (some (12.97161 : ℚ)) = false ∧ falsy (some (77.59461 : ℚ)) = false ∧
    falsy (some (12.98 : ℚ)) = false ∧ falsy (some (77.6 : ℚ)) = false := by
  refine ⟨?_, ?_, ?_, ?_⟩ <;> · simp only [falsy, beq_eq_false_iff_ne, ne_eq]
                                norm_num

/-- C5: a stored marker matches a delete request exactly when both its
latitude and longitude lie within the fixed tolerance 0.00001° of the
requested coordinates; concretely, a marker at (12.9716, 77.5946) is
matched and removed by a delete for (12.97161, 77.59461), while a delete
for (12.9800, 77.6000) matches nothing and returns 404 not-found. -/
theorem delete_tolerance_matching (reqLat reqLon : ℚ) (m : Marker) :
    (coordMatch reqLat reqLon m = true ↔
      |m.latitude - reqLat| ≤ tol ∧ |m.longitude - reqLon| ≤ tol) ∧
    (deleteLocation (some 12.97161) (some 77.59461)
      [⟨12.9716, 77.5946, ""⟩] false).status = 200 ∧
    (deleteLocation (some 12.97161) (some 77.59461)
      [⟨12.9716, 77.5946, ""⟩] false).store = [] ∧
    (deleteLocation (some 12.98) (some 77.6)
      [⟨12.9716, 77.5946, ""⟩] false).status = 404 ∧
    (deleteLocation (some 12.98) (some 77.6)
      [⟨12.9716, 77.5946, ""⟩] false).store = [⟨12.9716, 77.5946, ""⟩] := by
  obtain ⟨f1, f2, f3, f4⟩ := near_request_not_falsy
  refine ⟨coordMatch_iff_abs reqLat reqLon m, ?_, ?_, ?_, ?_⟩ <;>
    simp [deleteLocation, f1, f2, f3, f4, List.find?, coordMatch_near, coordMatch_far]

/-- C6: the `DELETE_MARKER` event published on a successful deletion
carries exactly the request's coordinate pair (the pair used for the
approximate match), regardless of the stored record that was removed. -/
theorem delete_event_carries_request_coords (lat lon : ℚ) (store : List Marker)
    (m : Marker) (hlat : lat ≠ 0) (hlon : lon ≠ 0)
    (hfind : store.find? (coordMatch lat lon) = some m) :
    (deleteLocation (some lat) (some lon) store false).events =
      [.DELETE_MARKER lat lon] := by
  simp [deleteLocation, falsy, hlat, hlon, hfind]

/-- Witness for C6: deleting at (12.97161, 77.59461) removes the stored
marker (12.9716, 77.5946) but the published payload is the request pair,
which differs from the stored record's own coordinates. -/
theorem delete_event_carries_request_coords_witness :
    (deleteLocation (some 12.97161) (some 77.59461)
      [⟨12.9716, 77.5946, ""⟩] false).events =
      [.DELETE_MARKER 12.97161 77.59461] ∧
    (12.97161 : ℚ) ≠ 12.9716 :=
  ⟨delete_event_carries_request_coords 12.97161 77.59461
      [⟨12.9716, 77.5946, ""⟩] ⟨12.9716, 77.5946, ""⟩
      (by norm_num) (by norm_num)
      (by simp [List.find?, coordMatch_near]),
   by norm_num⟩

/-- C10: a create, delete, or SOS request whose latitude or longitude is
absent or equal to 0 (JS-falsy, so an exact-zero coordinate counts as
missing) is answered 400 with no store mutation, no broadcast, and no
send to any recipient. -/
theorem falsy_coordinates_rejected (lat lon : Option ℚ) (desc : Option String)
    (save : StoreResult) (store : List Marker) (storeFail : Bool)
    (creds : Option Creds) (behavior : String → SendBehavior)
    (h : (falsy lat || falsy lon) = true) :
    postLocation lat lon desc save = ⟨400, [], []⟩ ∧
    deleteLocation lat lon store storeFail = ⟨400, [], store⟩ ∧
    sendSosHandler lat lon creds behavior = ⟨400, [], none⟩ := by
  refine ⟨?_, ?_, ?_⟩ <;> simp [postLocation, deleteLocation, sendSosHandler, h]

/-- Witness for C10 at latitude exactly 0 (and a present longitude 50):
all three routes return 400 and perform nothing. -/
theorem falsy_coordinates_rejected_witness :
    postLocation (some 0) (some 50) none .ok = ⟨400, [], []⟩ ∧
    deleteLocation (some 0) (some 50) [⟨5, 7, ""⟩] false =
      ⟨400, [], [⟨5, 7, ""⟩]⟩ ∧
    sendSosHandler (some 0) (some 50) none (fun _ => .sid "SM") =
      ⟨400, [], none⟩ :=
  falsy_coordinates_rejected (some 0) (some 50) none .ok [⟨5, 7, ""⟩] false
    none (fun _ => .sid "SM") (by decide)

end WomanSafety
